import Mathlib

/-!
Verification of the acquisition pipeline of `src/scrap.py` (WeiboHotScraper and
RealtimeHotScraper).  The Python functions are shallowly embedded as executable
Lean definitions; machine floats are represented exactly: every engagement value
produced by the code is `round(x, 2)` of a decimal, so values are carried as
exact scaled naturals ("hundredths of the canonical 万 unit"), and decimal
literals parsed from page text are carried as exact fractions `num / den` with
`den` a power of ten.  File-system effects are modelled by an explicit store
(directory list plus association list of files); network and subprocess
results are oracle parameters.
-/

/-! ### Generic character/string helpers (model the `str` and `re` operations
used by `scrap.py`). -/

/-- Model of the character class `\s` of Python regular expressions and of the
default `str.strip` character set. -/
def isWS (c : Char) : Bool := c.isWhitespace

/-- Python `str.strip()`: drop whitespace at both ends (on `List Char`). -/
def stripChars (l : List Char) : List Char :=
  ((l.dropWhile isWS).reverse.dropWhile isWS).reverse

/-- Python `str.strip()` on `String`. -/
def pyStrip (s : String) : String := ⟨stripChars s.data⟩

/-- Does `pat` occur at the head of `l`?  (Building block for substring search.) -/
def headMatch : List Char → List Char → Bool
  | [], _ => true
  | _ :: _, [] => false
  | p :: ps, c :: cs => p == c && headMatch ps cs

/-- Does `pat` occur anywhere in `l`?  Models the Python operator `pat in s`. -/
def subMatch (pat : List Char) : List Char → Bool
  | [] => pat.isEmpty
  | c :: cs => headMatch pat (c :: cs) || subMatch pat cs

/-- Python `pat in s` on `String`. -/
def strContains (pat s : String) : Bool := subMatch pat.data s.data

/-- One step list for `str.replace`: fuel-driven scan.  The fuel is the length
of the scanned list, which bounds the number of steps, so the recursion is
structural; with that fuel the function computes exactly Python
`s.replace(pat, "")` for a non-empty `pat` (all the patterns used by
`scrap.py` are non-empty). -/
def replGo (pat : List Char) : Nat → List Char → List Char
  | 0, l => l
  | _ + 1, [] => []
  | fuel + 1, c :: cs =>
    if headMatch pat (c :: cs) then replGo pat fuel ((c :: cs).drop pat.length)
    else c :: replGo pat fuel cs

/-- Python `s.replace(pat, "")` on `List Char`. -/
def replaceAllL (pat l : List Char) : List Char := replGo pat l.length l

/-- Python `s.replace(pat, "")` on `String`. -/
def pyReplace (s pat : String) : String := ⟨replaceAllL pat.data s.data⟩

/-- Numeric value of a decimal digit character. -/
def digitVal (c : Char) : Nat := c.toNat - 48

/-- Value of a string of decimal digits (Python `int(...)` on a digit run). -/
def digitsToNat (l : List Char) : Nat := l.foldl (fun a c => 10 * a + digitVal c) 0

/-- Number of decimal-digit characters, Python
`sum(1 for c in s if c.isdigit())`. -/
def digitCount (l : List Char) : Nat := l.countP Char.isDigit

/-! ### `WeiboHotScraper._extract_number` (scrap.py lines 206-240)

`re.search(r"[\d\.]+", text)` finds the first maximal run of digits/dots;
`float(...)` on such a run succeeds iff the run contains at most one dot and at
least one digit; the unit suffixes 亿 / 万 scale the value, a bare number is
divided by 10000; the result is `round(num, 2)`.  An unparseable run (the
`float` call raising) is caught and yields `0.0`. -/

/-- First maximal run of characters matching `[\d\.]`, as found by
`re.search(r"[\d\.]+", text)`. -/
def firstNumRun : List Char → Option (List Char)
  | [] => none
  | c :: cs =>
    if c.isDigit || c == '.' then
      some ((c :: cs).takeWhile fun x => x.isDigit || x == '.')
    else firstNumRun cs

/-- An exact decimal: `num / den` with `den` a power of ten. -/
structure PyDec where
  num : Nat
  den : Nat
deriving DecidableEq, Repr

/-- Python `float(...)` applied to a run of digits and dots: defined iff the
run has at most one dot and at least one digit (`float(".")`, `float("1.2.3")`
raise `ValueError`).  The value is returned exactly. -/
def parsePyFloat (l : List Char) : Option PyDec :=
  let ip := l.takeWhile Char.isDigit
  match l.dropWhile Char.isDigit with
  | [] => if ip.isEmpty then none else some ⟨digitsToNat ip, 1⟩
  | '.' :: rest =>
    if rest.all Char.isDigit then
      if ip.isEmpty && rest.isEmpty then none
      else some ⟨digitsToNat ip * 10 ^ rest.length + digitsToNat rest, 10 ^ rest.length⟩
    else none
  | _ :: _ => none

/-- `round(n / d * 100)` with ties to even (the rounding of Python `round`),
i.e. the value `round(n/d, 2)` expressed in hundredths.  Requires `0 < d`. -/
def roundHundredths (n d : Nat) : Nat :=
  let q := 100 * n / d
  let r := 100 * n % d
  if 2 * r < d then q
  else if d < 2 * r then q + 1
  else if q % 2 = 0 then q else q + 1

/-- `WeiboHotScraper._extract_number`: normalize a suffixed numeric string to
the canonical 万 unit.  The returned natural is the exact value in hundredths
of 万 (the Python code returns `round(num, 2)` as a float, which always lies on
a hundredth).  Unparseable input yields `0` and nothing raises. -/
def _extract_number (s : String) : Nat :=
  let text := pyStrip s
  match firstNumRun text.data with
  | none => 0
  | some run =>
    match parsePyFloat run with
    | none => 0
    | some v =>
      let v : PyDec :=
        if strContains "亿" text then ⟨v.num * 10000, v.den⟩
        else if strContains "万" text then v
        else ⟨v.num, v.den * 10000⟩
      roundHundredths v.num v.den

example : _extract_number "1.50亿" = 1500000 := by decide
example : _extract_number "855.15万" = 85515 := by decide
example : _extract_number "8210" = 82 := by decide
example : _extract_number "" = 0 := by decide
example : _extract_number "1.2.3万" = 0 := by decide

/-! ### `WeiboHotScraper._parse_rank` (scrap.py lines 242-295)

The h2 heading is modelled by the result of `get_text(strip=True)` plus the
optional text of its `span.sr-only` child (also after `get_text(strip=True)`).
`re.search(r"第\s*(\d+)\s*名", t)` and the substitutions are embedded as
character scans. -/

/-- An `h2.text-xl` heading: `text` is `get_text(strip=True)` of the whole tag,
`srOnly` is `get_text(strip=True)` of the `span.sr-only` child when present. -/
structure H2 where
  text : String
  srOnly : Option String
deriving DecidableEq, Repr

/-- Match `第\s*(\d+)\s*名` at the head of `l`; on success return the rank and
the remainder after `名`. -/
def matchRankAt (l : List Char) : Option (Nat × List Char) :=
  match l with
  | '第' :: cs =>
    let cs1 := cs.dropWhile isWS
    let ds := cs1.takeWhile Char.isDigit
    if ds.isEmpty then none
    else
      match (cs1.dropWhile Char.isDigit).dropWhile isWS with
      | '名' :: rest => some (digitsToNat ds, rest)
      | _ => none
  | _ => none

/-- `re.search(r"第\s*(\d+)\s*名", t)`: first match anywhere, returning the
captured rank. -/
def searchRank : List Char → Option Nat
  | [] => none
  | c :: cs =>
    match matchRankAt (c :: cs) with
    | some (r, _) => some r
    | none => searchRank cs

/-- Match `第\s*\d+\s*名：?` at the head of `l` (the substitution pattern also
consumes an optional full-width colon); return the remainder. -/
def matchRankColonAt (l : List Char) : Option (List Char) :=
  match matchRankAt l with
  | some (_, '：' :: rest) => some rest
  | some (_, rest) => some rest
  | none => none

/-- Fuel-driven scan for `re.sub(r"第\s*\d+\s*名：?", "", t)`: delete every
non-overlapping match.  Fuel = length of the list bounds the steps (each match
consumes at least three characters). -/
def subRankGo : Nat → List Char → List Char
  | 0, l => l
  | _ + 1, [] => []
  | fuel + 1, c :: cs =>
    match matchRankColonAt (c :: cs) with
    | some rest => subRankGo fuel rest
    | none => c :: subRankGo fuel cs

/-- `re.sub(r"第\s*\d+\s*名：?", "", t)`. -/
def subRankAll (l : List Char) : List Char := subRankGo l.length l

/-- `re.search(r"(\d+)", t)`: value of the first maximal digit run. -/
def searchInt : List Char → Option Nat
  | [] => none
  | c :: cs =>
    if c.isDigit then some (digitsToNat ((c :: cs).takeWhile Char.isDigit))
    else searchInt cs

/-- `re.sub(r"^\d+[\.:：]\s*", "", t)`: strip a leading integer, a separator
(dot / colon / full-width colon) and following whitespace, if present. -/
def subLeadingInt (l : List Char) : List Char :=
  let ds := l.takeWhile Char.isDigit
  if ds.isEmpty then l
  else
    match l.dropWhile Char.isDigit with
    | s :: rest => if s == '.' || s == ':' || s == '：' then rest.dropWhile isWS else l
    | [] => l

/-- `WeiboHotScraper._parse_rank`: extract `(rank, title)` from a heading.
Format `第N名：title` first; otherwise the first integer with a leading
`N./N:/N：` prefix stripped; otherwise rank 0 with the raw text as title. -/
def _parse_rank (h : H2) : Nat × String :=
  let full := h.text
  match searchRank full.data with
  | some r =>
    let title := pyStrip ⟨subRankAll full.data⟩
    let title :=
      if title = "" then
        match h.srOnly with
        | some sp => pyStrip (pyReplace full sp)
        | none => title
      else title
    (r, title)
  | none =>
    match searchInt full.data with
    | some r => (r, pyStrip ⟨subLeadingInt full.data⟩)
    | none => (0, pyStrip full)

example : _parse_rank ⟨"第1名：李铁被判20年", none⟩ = (1, "李铁被判20年") := by decide
example : _parse_rank ⟨"第1名：双轨空降", some "第1名："⟩ = (1, "双轨空降") := by decide
example : _parse_rank ⟨"第2名：", some "第2名："⟩ = (2, "") := by decide
example : _parse_rank ⟨"3. 话题", none⟩ = (3, "话题") := by decide
example : _parse_rank ⟨"话题", none⟩ = (0, "话题") := by decide

/-! ### `WeiboHotScraper.parse_page` (scrap.py lines 297-551) and
`_parse_page_backup` (lines 726-814)

A page is modelled after BeautifulSoup extraction: each candidate `<a>` tag
carries its `aria-label`, the optional `h2.text-xl` heading and, when the
`div.flex` container is found, the list of `get_text(strip=True)` results of
its `div.inline-flex` children.  The backup strategy scans `div.rounded-lg`
containers of the same shape. -/

/-- `HotItem` dataclass.  The four engagement metrics are in hundredths of the
canonical 万 unit (see `_extract_number`). -/
structure HotItem where
  rank : Nat
  title : String
  category : String
  heat : Nat
  reads : Nat
  discussions : Nat
  originals : Nat
  date : String
deriving DecidableEq, Repr

/-- A candidate `<a>` tag of the primary strategy. -/
structure Anchor where
  ariaLabel : String
  h2 : Option H2
  dataDiv : Option (List String)
deriving DecidableEq, Repr

/-- A `div.rounded-lg` container of the backup strategy. -/
structure Container where
  h2 : Option H2
  dataDiv : Option (List String)
deriving DecidableEq, Repr

/-- A parsed historical page: the `<a>` tags found by `soup.find_all("a")` and
the `div.rounded-lg` containers used by the backup strategy. -/
structure PageModel where
  anchors : List Anchor
  containers : List Container
deriving DecidableEq, Repr

/-- The `category_keywords` table of `parse_page`, in dict insertion order
(every value equals its key in the source). -/
def category_keywords : List String :=
  ["明星", "社会", "娱乐", "体育", "科技", "游戏", "美食", "财经", "时尚", "教育",
   "健康", "旅游", "汽车", "动漫", "军事", "数码", "音乐", "电影", "电视剧", "综艺",
   "搞笑", "情感", "生活", "家居", "育儿", "宠物", "摄影", "绘画", "读书", "写作",
   "职场", "法律", "政治", "历史", "文化", "艺术", "科学", "自然", "环保", "公益",
   "宗教", "心理", "星座", "彩票", "股票", "房产", "创业", "互联网", "手机", "电脑",
   "软件", "网络", "电商", "直播", "网红", "美妆", "服饰", "鞋包", "珠宝", "手表",
   "家具", "家电", "厨具", "食品", "饮料", "酒水", "烟草", "药品", "医疗", "医院",
   "学校", "教育机构", "公司", "工厂", "农村", "城市", "交通", "航空", "铁路", "公路",
   "海运", "天气", "地震", "台风", "洪水", "火灾", "事故", "犯罪", "警察", "法院",
   "监狱", "死亡", "出生", "结婚", "离婚", "恋爱", "分手", "求婚", "婚礼", "生日",
   "节日", "春节", "中秋", "端午", "清明", "国庆", "元旦", "圣诞"]

/-- Fields accumulated while scanning the `div.inline-flex` children. -/
structure Metrics where
  category : String
  heat : Nat
  reads : Nat
  discussions : Nat
  originals : Nat
deriving DecidableEq, Repr

/-- One `div.inline-flex` child of the primary strategy: classify by marker
glyph / keyword and update the corresponding field. -/
def stepMetric (m : Metrics) (text : String) : Metrics :=
  if strContains "🔥" text then { m with heat := _extract_number (pyReplace text "🔥") }
  else if strContains "阅读" text then { m with reads := _extract_number (pyReplace text "阅读") }
  else if strContains "讨论" text then { m with discussions := _extract_number (pyReplace text "讨论") }
  else if strContains "原创" text then { m with originals := _extract_number (pyReplace text "原创") }
  else
    match category_keywords.find? (fun kw => strContains kw text) with
    | some kw => { m with category := kw }
    | none => m

/-- Scan all data tags of one entry (primary strategy). -/
def runMetrics (texts : List String) : Metrics :=
  texts.foldl stepMetric ⟨"", 0, 0, 0, 0⟩

/-- The filter selecting real hot-search `<a>` tags:
`("查看微博话题" in aria_label and h2 and data) or (h2 and data)`. -/
def anchorIsHot (a : Anchor) : Bool :=
  (strContains "查看微博话题" a.ariaLabel && a.h2.isSome && a.dataDiv.isSome) ||
    (a.h2.isSome && a.dataDiv.isSome)

/-- Build a `HotItem` from a heading and its data tags; entries with rank 0 or
an empty title are rejected (`if rank > 0 and title`). -/
def buildItem (date : String) (h : H2) (texts : List String) : Option HotItem :=
  let rt := _parse_rank h
  let m := runMetrics texts
  if 0 < rt.1 ∧ rt.2 ≠ "" then
    some ⟨rt.1, rt.2, m.category, m.heat, m.reads, m.discussions, m.originals, date⟩
  else none

/-- Entries extracted by the primary strategy, in page order. -/
def primaryItems (anchors : List Anchor) (date : String) : List HotItem :=
  (anchors.filter anchorIsHot).filterMap fun a =>
    match a.h2, a.dataDiv with
    | some h, some texts => buildItem date h texts
    | _, _ => none

/-- Insert `x` after all already-placed elements of key `≤ key x` (stable
insertion). -/
def insertByKey (key : α → Nat) (x : α) : List α → List α
  | [] => [x]
  | y :: ys => if key x < key y then x :: y :: ys else y :: insertByKey key x ys

/-- Stable sort by a natural-number key; extensionally equal to Python
`list.sort(key=...)` (both are stable sorts on the same key). -/
def stableSortBy (key : α → Nat) (l : List α) : List α :=
  l.foldl (fun acc x => insertByKey key x acc) []

/-- `hot_items.sort(key=lambda x: x.rank)`. -/
def sortByRank (l : List HotItem) : List HotItem := stableSortBy (fun it => it.rank) l

/-- One data tag of the backup strategy (note: the category branches come
first, and a matching text is stored whole as the category for the
明星/社会/娱乐/体育 group). -/
def stepMetricBackup (m : Metrics) (text : String) : Metrics :=
  if strContains "明星" text || strContains "社会" text || strContains "娱乐" text ||
      strContains "体育" text then
    { m with category := text }
  else if strContains "🔥" text then { m with heat := _extract_number (pyReplace text "🔥") }
  else if strContains "阅读" text then { m with reads := _extract_number (pyReplace text "阅读") }
  else if strContains "讨论" text then { m with discussions := _extract_number (pyReplace text "讨论") }
  else if strContains "原创" text then { m with originals := _extract_number (pyReplace text "原创") }
  else if strContains "游戏" text then { m with category := "游戏" }
  else if strContains "美食" text then { m with category := "美食" }
  else if strContains "财经" text then { m with category := "财经" }
  else m

/-- Build a backup-strategy `HotItem` from a heading and its data tags, with
the same rank/title validation as the primary strategy. -/
def buildItemBackup (date : String) (h : H2) (texts : List String) : Option HotItem :=
  let rt := _parse_rank h
  let m := texts.foldl stepMetricBackup ⟨"", 0, 0, 0, 0⟩
  if 0 < rt.1 ∧ rt.2 ≠ "" then
    some ⟨rt.1, rt.2, m.category, m.heat, m.reads, m.discussions, m.originals, date⟩
  else none

/-- Per-container step of the backup strategy: the two `continue` guards
(`if not h2_tag`, `if not data_div`) and then the item construction. -/
def containerExtract (date : String) (c : Container) : Option HotItem :=
  match c.h2 with
  | none => none
  | some h =>
    match c.dataDiv with
    | none => none
    | some texts => buildItemBackup date h texts

/-- `WeiboHotScraper._parse_page_backup`: the alternate extraction used when
the primary strategy found nothing.  Its result is not re-sorted. -/
def _parse_page_backup (containers : List Container) (date : String) : List HotItem :=
  containers.filterMap (containerExtract date)

/-- `WeiboHotScraper.parse_page`: primary extraction, sort by rank, and fall
back to the backup strategy when no entry was found. -/
def parse_page (page : PageModel) (date : String) : List HotItem :=
  let items := sortByRank (primaryItems page.anchors date)
  if items.isEmpty then _parse_page_backup page.containers date else items

example :
    parse_page ⟨[⟨"查看微博话题", some ⟨"第2名：双轨空降", none⟩, some []⟩], []⟩ "2025-01-01"
      = [⟨2, "双轨空降", "", 0, 0, 0, 0, "2025-01-01"⟩] := by decide

/-! ### `WeiboHotScraper.save_data` (scrap.py lines 553-594) and
`scrape_date` (lines 624-659)

`datetime.strptime(date, "%Y-%m-%d")` is embedded after CPython's `_strptime`:
the format compiles to the anchored regex
`(\d\d\d\d)-(1[0-2]|0[1-9]|[1-9])-(3[01]|[12]\d|0[1-9]|[1-9])` which must
consume the whole string (alternatives tried in order with backtracking), and
the resulting `datetime(y, m, d)` then validates `1 <= y` and the day against
the month length.  The filesystem is a `Store`: a set of created directories
and an association list `path ↦ snapshot`; `json.dump` is deterministic on a
given snapshot, so byte contents are modelled by the snapshot value itself. -/

/-- Gregorian leap year, as used by `datetime`. -/
def isLeap (y : Nat) : Bool := y % 4 = 0 && (y % 100 != 0 || y % 400 = 0)

/-- Length of month `m` of year `y` (`datetime` validation). -/
def daysInMonth (y m : Nat) : Nat :=
  if m = 2 then (if isLeap y then 29 else 28)
  else if m = 4 ∨ m = 6 ∨ m = 9 ∨ m = 11 then 30
  else 31

/-- Try alternatives in order, keeping the first whose continuation succeeds
(regex alternation with backtracking). -/
def firstHit : List α → (α → Option β) → Option β
  | [], _ => none
  | a :: l, f =>
    match f a with
    | some b => some b
    | none => firstHit l f

/-- Month alternatives `1[0-2]|0[1-9]|[1-9]` in regex order, each with the
remainder of the input. -/
def monthAlts (l : List Char) : List (Nat × List Char) :=
  (match l with
   | '1' :: c :: rest => if '0' ≤ c ∧ c ≤ '2' then [(10 + digitVal c, rest)] else []
   | _ => []) ++
  (match l with
   | '0' :: c :: rest => if '1' ≤ c ∧ c ≤ '9' then [(digitVal c, rest)] else []
   | _ => []) ++
  (match l with
   | c :: rest => if '1' ≤ c ∧ c ≤ '9' then [(digitVal c, rest)] else []
   | _ => [])

/-- Day alternatives `3[01]|[12]\d|0[1-9]|[1-9]` in regex order. -/
def dayAlts (l : List Char) : List (Nat × List Char) :=
  (match l with
   | '3' :: c :: rest => if '0' ≤ c ∧ c ≤ '1' then [(30 + digitVal c, rest)] else []
   | _ => []) ++
  (match l with
   | a :: c :: rest =>
     if ('1' ≤ a ∧ a ≤ '2') ∧ c.isDigit then [(10 * digitVal a + digitVal c, rest)] else []
   | _ => []) ++
  (match l with
   | '0' :: c :: rest => if '1' ≤ c ∧ c ≤ '9' then [(digitVal c, rest)] else []
   | _ => []) ++
  (match l with
   | c :: rest => if '1' ≤ c ∧ c ≤ '9' then [(digitVal c, rest)] else []
   | _ => [])

/-- The `%Y-%m-%d` regex match (whole string), returning `(y, m, d)`. -/
def regexYmd (l : List Char) : Option (Nat × Nat × Nat) :=
  match l with
  | y1 :: y2 :: y3 :: y4 :: '-' :: rest =>
    if y1.isDigit ∧ y2.isDigit ∧ y3.isDigit ∧ y4.isDigit then
      firstHit (monthAlts rest) fun mr =>
        match mr.2 with
        | '-' :: rest2 =>
          firstHit (dayAlts rest2) fun dr =>
            if dr.2 = [] then some (digitsToNat [y1, y2, y3, y4], mr.1, dr.1) else none
        | _ => none
    else none
  | _ => none

/-- `datetime.strptime(date, "%Y-%m-%d")`: regex match plus calendar
validation (`datetime` also requires `MINYEAR = 1`). -/
def parseDate (s : String) : Option (Nat × Nat × Nat) :=
  match regexYmd s.data with
  | none => none
  | some (y, m, d) => if 1 ≤ y ∧ d ≤ daysInMonth y m then some (y, m, d) else none

example : parseDate "2025-01-03" = some (2025, 1, 3) := by decide
example : parseDate "2024-02-29" = some (2024, 2, 29) := by decide
example : parseDate "2025-02-29" = none := by decide
example : parseDate "2025-13-01" = none := by decide
example : parseDate "2025-1-3" = some (2025, 1, 3) := by decide
example : parseDate "not-a-date" = none := by decide
example : parseDate "" = none := by decide
example : parseDate "2025-01-033" = none := by decide

/-- Decimal digit character of `n < 10`. -/
def natDigit (n : Nat) : Char := Char.ofNat (48 + n)

/-- `strftime("%Y")`: four-digit zero-padded year. -/
def pad4 (n : Nat) : String :=
  ⟨[natDigit (n / 1000 % 10), natDigit (n / 100 % 10), natDigit (n / 10 % 10), natDigit (n % 10)]⟩

/-- `strftime("%m")`: two-digit zero-padded month. -/
def pad2 (n : Nat) : String := ⟨[natDigit (n / 10 % 10), natDigit (n % 10)]⟩

/-- The persisted snapshot `{"date": ..., "count": ..., "data": ...}`.
`json.dump(..., ensure_ascii=False, indent=2)` is a deterministic function of
this value, so byte-identical contents correspond to equal snapshots. -/
structure Snapshot where
  date : String
  count : Nat
  data : List HotItem
deriving DecidableEq, Repr

/-- The filesystem as seen by the scraper: created directories and the JSON
files, keyed by path. -/
structure Store where
  dirs : List String
  files : List (String × Snapshot)
deriving DecidableEq, Repr

/-- `open(filepath, "w")` + `json.dump`: unconditional overwrite at `path`. -/
def setFile (files : List (String × Snapshot)) (path : String) (snap : Snapshot) :
    List (String × Snapshot) :=
  (path, snap) :: files.filter (fun e => e.1 != path)

/-- `os.makedirs(d, exist_ok=True)`. -/
def ensureDir (dirs : List String) (d : String) : List String :=
  if d ∈ dirs then dirs else d :: dirs

/-- The month directory `<outputDir>/<YYYY-MM>` of a parsed date. -/
def monthDir (outputDir : String) (y m : Nat) : String :=
  outputDir ++ "/" ++ pad4 y ++ "-" ++ pad2 m

/-- The file path `<outputDir>/<YYYY-MM>/<date>.json`. -/
def filePath (outputDir : String) (y m : Nat) (date : String) : String :=
  monthDir outputDir y m ++ "/" ++ date ++ ".json"

/-- Content of the store at a path. -/
def fileLookup (σ : Store) (path : String) : Option Snapshot :=
  (σ.files.find? (fun e => e.1 == path)).map (fun e => e.2)

/-- `WeiboHotScraper.save_data`: parse the date (an unparseable date raises
`ValueError`, caught: the store is untouched and `False` is returned), create
the month directory, overwrite `<YYYY-MM>/<date>.json` with
`{date, count = len(data), data}`, and return `True`. -/
def save_data (σ : Store) (data : List HotItem) (date : String) (outputDir : String) :
    Store × Bool :=
  match parseDate date with
  | none => (σ, false)
  | some (y, m, _) =>
    let md := monthDir outputDir y m
    let fp := filePath outputDir y m date
    (⟨ensureDir σ.dirs md, setFile σ.files fp ⟨date, data.length, data⟩⟩, true)

/-- `WeiboHotScraper.scrape_date`, given the outcome of `fetch_page` as an
oracle (`none` = fetch failed).  On a fetched page: parse (the inter-request
sleep has no effect on the store) and persist, returning `save_data`'s flag.
An empty parse result is persisted all the same. -/
def scrape_date (fetched : Option PageModel) (σ : Store) (date : String)
    (outputDir : String) : Store × Bool :=
  match fetched with
  | none => (σ, false)
  | some page => save_data σ (parse_page page date) date outputDir

example :
    fileLookup (scrape_date (some ⟨[], []⟩) ⟨[], []⟩ "2025-01-03" "data").1
        (filePath "data" 2025 1 "2025-01-03") = some ⟨"2025-01-03", 0, []⟩ := by decide

/-! ### `WeiboHotScraper.scrape_range` (scrap.py lines 661-724)

Dates are modelled as integer day numbers: `datetime` values are totally
ordered and `current += timedelta(days=1)` is the successor, so the loop
`while current <= end` walks exactly the calendar dates between the bounds.
The per-date behaviour of `scrape_date` is an oracle: it returned `True`,
returned `False`, or raised (the exception is caught by the `except` inside
the loop and recorded as a failure). -/

/-- Per-date outcome of `self.scrape_date(date)` inside the loop. -/
inductive DayOutcome
  | ok
  | failed
  | raised
deriving DecidableEq, Repr

/-- Did the date get recorded as failed?  (`False` returned, or exception.) -/
def dayFailed : DayOutcome → Bool
  | .ok => false
  | .failed => true
  | .raised => true

/-- The statistics dict built by `scrape_range`. -/
structure RunStats where
  total_dates : Nat
  successful : Nat
  failed : Nat
  failed_dates : List Int
deriving DecidableEq, Repr

/-- The date-list generation loop `while current <= end`, fuel-driven; fuel
`(end + 1 - start).toNat` is exactly the number of iterations. -/
def dateListGo : Nat → Int → Int → List Int
  | 0, _, _ => []
  | fuel + 1, cur, e => if cur ≤ e then cur :: dateListGo fuel (cur + 1) e else []

/-- The `date_list` built by `scrape_range`. -/
def dateList (s e : Int) : List Int := dateListGo (e + 1 - s).toNat s e

/-- The per-date loop of `scrape_range`: successes and failures counted,
failed dates collected in order. -/
def scrapeLoop (out : Int → DayOutcome) : List Int → Nat × Nat × List Int
  | [] => (0, 0, [])
  | d :: rest =>
    let r := scrapeLoop out rest
    match out d with
    | .ok => (r.1 + 1, r.2.1, r.2.2)
    | .failed => (r.1, r.2.1 + 1, d :: r.2.2)
    | .raised => (r.1, r.2.1 + 1, d :: r.2.2)

/-- `WeiboHotScraper.scrape_range` over day numbers `s ≤ e` with the per-date
oracle `out`.  (The ValueError branch for unparseably formatted bounds is
outside this model: the claims quantify over valid date pairs.) -/
def scrape_range (s e : Int) (out : Int → DayOutcome) : RunStats :=
  let dl := dateList s e
  let r := scrapeLoop out dl
  ⟨dl.length, r.1, r.2.1, r.2.2⟩

example :
    scrape_range 0 2 (fun d => if d = 1 then .raised else .ok)
      = ⟨3, 2, 1, [1]⟩ := by decide

/-! ### `RealtimeHotScraper.parse_realtime_page` (scrap.py lines 1252-1366)

A realtime page is modelled after BeautifulSoup extraction: the `<tr>` rows of
the ranking table (each with its class list and, when `td.td-02` and its `<a>`
are found, the anchor text), plus the candidate links of the fallback pass
(`soup.find_all("a", href=re.compile(r"s\.weibo\.com/weibo"))`). -/

/-- A realtime entry `{"rank": ..., "title": ...}`. -/
structure RTItem where
  rank : Nat
  title : String
deriving DecidableEq, Repr

/-- A `td.td-02` cell: the `get_text(strip=True)` of its `<a>`, when found. -/
structure RTTd where
  aText : Option String
deriving DecidableEq, Repr

/-- A `<tr>` row of the ranking table. -/
structure TrRow where
  classes : List String
  td02 : Option RTTd
deriving DecidableEq, Repr

/-- A candidate link of the fallback pass. -/
structure RTLink where
  text : String
deriving DecidableEq, Repr

/-- `re.search(r"thead|top|ad|banner", cls)` over the class list. -/
def rowIsSkippedClass (classes : List String) : Bool :=
  classes.any fun c =>
    strContains "thead" c || strContains "top" c || strContains "ad" c ||
      strContains "banner" c

/-- The table pass: walk rows with a running `rank_counter`, keeping rows that
have a `td.td-02` with an `<a>`, are not header/ad rows, and have a non-empty
`#`-stripped title. -/
def tablePass (counter : Nat) : List TrRow → List RTItem
  | [] => []
  | tr :: rest =>
    match tr.td02 with
    | none => tablePass counter rest
    | some td =>
      if rowIsSkippedClass tr.classes then tablePass counter rest
      else
        match td.aText with
        | none => tablePass counter rest
        | some t =>
          let title := pyStrip (pyReplace t "#")
          if title = "" then tablePass counter rest
          else ⟨counter + 1, title⟩ :: tablePass (counter + 1) rest

/-- The fallback pass over candidate links, run when the table produced fewer
than 20 rows: skip empty, already-seen, too-short or too-long titles, number
new items `len(hot_items) + 1`, stop once 50 items are reached. -/
def linkPass (seen : List String) (items : List RTItem) : List RTLink → List RTItem
  | [] => items
  | lk :: rest =>
    let t := pyStrip (pyReplace lk.text "#")
    if t = "" ∨ t ∈ seen then linkPass seen items rest
    else if t.length < 2 ∨ 100 < t.length then linkPass seen items rest
    else
      let items2 := items ++ [⟨items.length + 1, t⟩]
      if 50 ≤ items2.length then items2 else linkPass (t :: seen) items2 rest

/-- The dedup/cleanup loop: drop titles that are more than one-third digits
(`digit_count > len(title) / 3`, i.e. `3 * digit_count > len`), drop exact
duplicate titles. -/
def cleanLoop (seen : List String) : List RTItem → List RTItem
  | [] => []
  | it :: rest =>
    if it.title.length < 3 * digitCount it.title.data then cleanLoop seen rest
    else if it.title ∈ seen then cleanLoop seen rest
    else it :: cleanLoop (it.title :: seen) rest

/-- Re-number ranks contiguously (`for idx, item in enumerate(cleaned, 1)`). -/
def renumber (i : Nat) : List RTItem → List RTItem
  | [] => []
  | it :: rest => ⟨i, it.title⟩ :: renumber (i + 1) rest

/-- `RealtimeHotScraper.parse_realtime_page`: table pass, fallback link pass
when fewer than 20 rows were found, stable sort by rank, dedup/cleanup, and
contiguous re-numbering from 1. -/
def parse_realtime_page (rows : List TrRow) (links : List RTLink) : List RTItem :=
  let hot := tablePass 0 rows
  let hot := if hot.length < 20 then linkPass (hot.map (fun i => i.title)) hot links else hot
  let hot := if hot.isEmpty then hot else stableSortBy (fun i => i.rank) hot
  renumber 1 (cleanLoop [] hot)

example :
    parse_realtime_page
      [⟨["thead"], some ⟨some "标题"⟩⟩,
       ⟨[], some ⟨some "#话题甲#"⟩⟩,
       ⟨[], none⟩,
       ⟨[], some ⟨some "话题甲"⟩⟩,
       ⟨[], some ⟨some "12345678 位"⟩⟩,
       ⟨[], some ⟨some "话题乙"⟩⟩] []
      = [⟨1, "话题甲"⟩, ⟨2, "话题乙"⟩] := by decide

/-! ### `RealtimeHotScraper.fetch_realtime_top50` (scrap.py lines 1462-1533)

The cache file is modelled by its parsed record (age of the timestamp in
seconds at call time, and the entry list); `load_from_file` rejects a missing
file and a record with an empty `data` list.  The freshness test
`age_hours < 1` is `ageSeconds < 3600`.  The two acquisition strategies are
oracles: the Playwright call either raised or returned a list, and the HTTP
strategy is the fetched page (`none` when `fetch_realtime_page` failed),
parsed by `parse_realtime_page`.  The outcome records which strategies were
invoked. -/

/-- The parsed realtime cache record, with the age of its timestamp (in
seconds) at the time of the call. -/
structure CacheFile where
  ageSeconds : Nat
  data : List RTItem
deriving DecidableEq, Repr

/-- Result of the `fetch_realtime_top50_with_playwright()` call: it raised, or
returned a (possibly empty) list. -/
inductive PwResult
  | raised
  | returned (items : List RTItem)
deriving DecidableEq, Repr

/-- The list the Playwright strategy yields (`[]` when it raised). -/
def pwYield : PwResult → List RTItem
  | .raised => []
  | .returned items => items

/-- A fetched realtime page, as consumed by `parse_realtime_page`. -/
structure RTPage where
  rows : List TrRow
  links : List RTLink
deriving DecidableEq, Repr

/-- The list the HTTP strategy yields: `parse_realtime_page(html)[:50]`, or
`[]` when `fetch_realtime_page` returned `None`. -/
def httpYield : Option RTPage → List RTItem
  | none => []
  | some p => (parse_realtime_page p.rows p.links).take 50

/-- Outcome of `fetch_realtime_top50`: the returned list plus which
acquisition strategies were invoked. -/
structure FetchOutcome where
  result : List RTItem
  usedPlaywright : Bool
  usedHttp : Bool
deriving DecidableEq, Repr

/-- `RealtimeHotScraper.load_from_file`: `None` for a missing file or an empty
`data` list, otherwise the entry list. -/
def load_from_file : Option CacheFile → Option (List RTItem)
  | none => none
  | some c => if c.data.isEmpty then none else some c.data

/-- Strategy 4: return the (possibly stale) cached data, or an empty list. -/
def rtFallback : Option (List RTItem) → List RTItem
  | some d => d.take 50
  | none => []

/-- Strategies 3-4: the HTTP attempt and, failing that, the stale-cache
fallback.  Reaching this point both strategies have been invoked. -/
def rtAfterPlaywright (cached : Option (List RTItem)) (page : Option RTPage) :
    FetchOutcome :=
  let items := httpYield page
  if items.isEmpty then ⟨rtFallback cached, true, true⟩ else ⟨items, true, true⟩

/-- Strategies 2-4: the Playwright attempt (a raised exception is caught; an
empty list is not accepted), then HTTP, then the cache fallback. -/
def rtPlaywrightStep (cached : Option (List RTItem)) (pw : PwResult)
    (page : Option RTPage) : FetchOutcome :=
  match pw with
  | .returned items =>
    if items.isEmpty then rtAfterPlaywright cached page else ⟨items, true, false⟩
  | .raised => rtAfterPlaywright cached page

/-- `RealtimeHotScraper.fetch_realtime_top50`.  When caching is allowed, a
non-empty record younger than one hour is served directly (`[:50]`) with no
strategy invoked; otherwise the fallback chain runs, ending at the stale
cache (which is consulted only when `use_cache` was true, since `cached_data`
is only loaded then). -/
def fetch_realtime_top50 (use_cache : Bool) (cache : Option CacheFile)
    (pw : PwResult) (page : Option RTPage) : FetchOutcome :=
  let cached := if use_cache then load_from_file cache else none
  match cached, cache with
  | some d, some c =>
    if c.ageSeconds < 3600 then ⟨d.take 50, false, false⟩
    else rtPlaywrightStep (some d) pw page
  | _, _ => rtPlaywrightStep cached pw page

/-! ### `RealtimeHotScraper.fetch_realtime_top50_with_playwright`
(scrap.py lines 1557-1639), subprocess branch

In the Streamlit host the browser strategy runs in a child process; the result
comes back through a temporary JSON file.  The child is an oracle: exit code 0
with a readable or malformed payload, a non-zero exit, or a wall-clock timeout
(120 s).  The model records whether the temporary file was removed: the
`os.remove` sits in the `finally` of the payload-reading `try`, which is only
entered on the `returncode == 0` path. -/

/-- Outcome of the child process running `_run_playwright_browser`. -/
inductive ChildOutcome
  | completed (payload : Option (List RTItem))
  | nonzeroExit
  | timedOut
deriving DecidableEq, Repr

/-- Result of the bridge: the returned list and whether the temporary file was
deleted. -/
structure BridgeResult where
  items : List RTItem
  tmpRemoved : Bool
deriving DecidableEq, Repr

/-- The subprocess branch of
`RealtimeHotScraper.fetch_realtime_top50_with_playwright`:
`returncode == 0` reads the payload inside `try ... finally os.remove(tmp)`
(a malformed payload raises out of `json.load`, is caught by the outer
`except` after the `finally` removed the file, and yields `[]`); a non-zero
exit returns `[]` with no removal; `subprocess.TimeoutExpired` returns `[]`
with no removal. -/
def fetch_realtime_top50_with_playwright : ChildOutcome → BridgeResult
  | .completed (some items) => ⟨items, true⟩
  | .completed none => ⟨[], true⟩
  | .nonzeroExit => ⟨[], false⟩
  | .timedOut => ⟨[], false⟩

example :
    fetch_realtime_top50 true (some ⟨3540, [⟨1, "甲"⟩]⟩) .raised none
      = ⟨[⟨1, "甲"⟩], false, false⟩ := by decide
example :
    fetch_realtime_top50 true (some ⟨3600, [⟨1, "甲"⟩]⟩) .raised none
      = ⟨[⟨1, "甲"⟩], true, true⟩ := by decide
example :
    fetch_realtime_top50 false (some ⟨7200, [⟨1, "甲"⟩]⟩) .raised none
      = ⟨[], true, true⟩ := by decide

/-! ### Concrete inputs used by witnesses and counterexamples -/

/-- A page whose only entry is headed `第2名：…` (e.g. a truncated snapshot):
the primary strategy extracts it with rank 2. -/
def c2Page : PageModel :=
  ⟨[⟨"查看微博话题", some ⟨"第2名：双轨空降", none⟩, some []⟩], []⟩

/-- A cache record 59 minutes old holding one entry. -/
def c4cache : CacheFile := ⟨3540, [⟨1, "测试"⟩]⟩

/-- A stale (2 hours old) cache record holding one entry. -/
def c5cache : CacheFile := ⟨7200, [⟨1, "旧闻"⟩]⟩

/-- A stale cache record holding two entries. -/
def c5wcache : CacheFile := ⟨7200, [⟨1, "甲"⟩, ⟨2, "乙"⟩]⟩

/-- A three-day range whose middle day raises. -/
def c6scen : Int → DayOutcome := fun d => if d = 1 then DayOutcome.raised else DayOutcome.ok

/-- A page with no primary-strategy anchors but one backup-strategy container. -/
def c7pageA : PageModel := ⟨[], [⟨some ⟨"第1名：测试", none⟩, some []⟩]⟩

/-- A page on which both strategies find nothing. -/
def c7pageB : PageModel := ⟨[], []⟩

/-- An empty store. -/
def emptyStore : Store := ⟨[], []⟩

/-! ### Helper lemmas -/

theorem mem_insertByKey {key : α → Nat} {x a : α} :
    ∀ {l : List α}, a ∈ insertByKey key x l ↔ a = x ∨ a ∈ l := by
  intro l
  induction l with
  | nil => simp [insertByKey]
  | cons y ys ih =>
    unfold insertByKey
    split
    · simp [or_comm, or_assoc, or_left_comm]
    · simp [ih]
      tauto

theorem mem_foldl_insertByKey {key : α → Nat} {a : α} :
    ∀ (l acc : List α),
      a ∈ l.foldl (fun acc x => insertByKey key x acc) acc ↔ a ∈ acc ∨ a ∈ l := by
  intro l
  induction l with
  | nil => simp
  | cons x xs ih =>
    intro acc
    simp only [List.foldl_cons, ih, mem_insertByKey, List.mem_cons]
    tauto

theorem mem_stableSortBy {key : α → Nat} {a : α} {l : List α} :
    a ∈ stableSortBy key l ↔ a ∈ l := by
  unfold stableSortBy
  rw [mem_foldl_insertByKey]
  simp

theorem pairwise_insertByKey {key : α → Nat} {x : α} :
    ∀ {l : List α}, l.Pairwise (fun a b => key a ≤ key b) →
      (insertByKey key x l).Pairwise (fun a b => key a ≤ key b) := by
  intro l
  induction l with
  | nil => simp [insertByKey]
  | cons y ys ih =>
    intro h
    rw [List.pairwise_cons] at h
    unfold insertByKey
    split
    · rename_i hlt
      rw [List.pairwise_cons]
      refine ⟨?_, List.Pairwise.cons h.1 h.2⟩
      intro b hb
      rcases List.mem_cons.mp hb with hb | hb
      · subst hb; omega
      · exact le_trans (by omega) (h.1 b hb)
    · rename_i hge
      rw [List.pairwise_cons]
      refine ⟨?_, ih h.2⟩
      intro b hb
      rcases mem_insertByKey.mp hb with hb | hb
      · subst hb; omega
      · exact h.1 b hb

theorem pairwise_stableSortBy {key : α → Nat} (l : List α) :
    (stableSortBy key l).Pairwise (fun a b => key a ≤ key b) := by
  unfold stableSortBy
  have main : ∀ (l acc : List α), acc.Pairwise (fun a b => key a ≤ key b) →
      (l.foldl (fun acc x => insertByKey key x acc) acc).Pairwise
        (fun a b => key a ≤ key b) := by
    intro l
    induction l with
    | nil => intro acc h; simpa using h
    | cons x xs ih =>
      intro acc h
      exact ih _ (pairwise_insertByKey h)
  exact main l [] (by simp)

theorem cleanLoop_nodup (l : List RTItem) :
    ∀ seen : List String,
      ((cleanLoop seen l).map (fun it => it.title)).Nodup ∧
        ∀ t ∈ (cleanLoop seen l).map (fun it => it.title), t ∉ seen := by
  induction l with
  | nil => intro seen; simp [cleanLoop]
  | cons it rest ih =>
    intro seen
    unfold cleanLoop
    split
    · exact ih seen
    · split
      · exact ih seen
      · rename_i hdig hseen
        have h2 := ih (it.title :: seen)
        simp only [List.map_cons, List.nodup_cons, List.mem_map, List.mem_cons]
        constructor
        · constructor
          · intro hcon
            rcases hcon with ⟨b, hb, hbt⟩
            have := h2.2 b.title (List.mem_map.mpr ⟨b, hb, rfl⟩)
            simp [hbt] at this
          · exact h2.1
        · intro t ht
          rcases ht with ht | ⟨b, hb, hbt⟩
          · rw [ht]; exact hseen
          · have := h2.2 t (List.mem_map.mpr ⟨b, hb, hbt⟩)
            intro hcon
            exact this (List.mem_cons_of_mem _ hcon)

theorem cleanLoop_digit (l : List RTItem) :
    ∀ seen : List String,
      ∀ it ∈ cleanLoop seen l, 3 * digitCount it.title.data ≤ it.title.length := by
  induction l with
  | nil => intro seen; simp [cleanLoop]
  | cons x rest ih =>
    intro seen it hit
    unfold cleanLoop at hit
    split at hit
    · exact ih seen it hit
    · split at hit
      · exact ih seen it hit
      · rename_i hdig _
        rcases List.mem_cons.mp hit with h | h
        · subst h; omega
        · exact ih _ it h

theorem renumber_map_title (l : List RTItem) :
    ∀ i, (renumber i l).map (fun it => it.title) = l.map (fun it => it.title) := by
  induction l with
  | nil => intro i; rfl
  | cons x rest ih => intro i; simp [renumber, ih]

theorem renumber_map_rank (l : List RTItem) :
    ∀ i, (renumber i l).map (fun it => it.rank) = List.range' i l.length := by
  induction l with
  | nil => intro i; rfl
  | cons x rest ih => intro i; simp [renumber, ih, List.range'_succ]

theorem renumber_length (l : List RTItem) : ∀ i, (renumber i l).length = l.length := by
  induction l with
  | nil => intro i; rfl
  | cons x rest ih => intro i; simp [renumber, ih]


theorem dayFailed_ok : dayFailed DayOutcome.ok = false := rfl

theorem dayFailed_failed : dayFailed DayOutcome.failed = true := rfl

theorem dayFailed_raised : dayFailed DayOutcome.raised = true := rfl

theorem scrapeLoop_spec (out : Int → DayOutcome) :
    ∀ l : List Int,
      (scrapeLoop out l).1 + (scrapeLoop out l).2.1 = l.length ∧
        (scrapeLoop out l).2.2 = l.filter (fun d => dayFailed (out d)) ∧
        (scrapeLoop out l).2.1 = (l.filter (fun d => dayFailed (out d))).length := by
  intro l
  induction l with
  | nil => simp [scrapeLoop]
  | cons d rest ih =>
    unfold scrapeLoop
    rcases hout : out d with _ | _ | _ <;>
      simp only [List.filter_cons, hout, dayFailed_ok, dayFailed_failed, dayFailed_raised,
        if_true, if_false, Bool.false_eq_true, ite_false, ite_true, List.length_cons] <;>
      refine ⟨by have := ih.1; omega, ?_, ?_⟩ <;>
      simp [ih.2.1, ih.2.2]

theorem dateListGo_eq :
    ∀ (n : Nat) (s e : Int), n = (e + 1 - s).toNat →
      dateListGo n s e = (List.range n).map (fun i : Nat => s + (i : Int)) := by
  intro n
  induction n with
  | zero => intro s e _; rfl
  | succ n ih =>
    intro s e h
    have hs : s ≤ e := by omega
    have h2 : n = (e + 1 - (s + 1)).toNat := by omega
    unfold dateListGo
    rw [if_pos hs, ih (s + 1) e h2, List.range_succ_eq_map, List.map_cons, List.map_map]
    refine congrArg₂ List.cons (by simp) ?_
    apply List.map_congr_left
    intro a _
    simp only [Function.comp_apply]
    push_cast
    ring

theorem buildItem_valid {date : String} {h : H2} {texts : List String} {it : HotItem}
    (hb : buildItem date h texts = some it) : 1 ≤ it.rank ∧ it.title ≠ "" := by
  simp only [buildItem] at hb
  split at hb
  · rename_i hcond
    injection hb with hb
    subst hb
    exact ⟨hcond.1, hcond.2⟩
  · cases hb

theorem mem_primaryItems_valid {anchors : List Anchor} {date : String} {it : HotItem}
    (hmem : it ∈ primaryItems anchors date) : 1 ≤ it.rank ∧ it.title ≠ "" := by
  unfold primaryItems at hmem
  rcases List.mem_filterMap.mp hmem with ⟨a, _, ha⟩
  split at ha
  · exact buildItem_valid ha
  · cases ha

theorem buildItemBackup_valid {date : String} {h : H2} {texts : List String} {it : HotItem}
    (hb : buildItemBackup date h texts = some it) : 1 ≤ it.rank ∧ it.title ≠ "" := by
  simp only [buildItemBackup] at hb
  split at hb
  · rename_i hcond
    injection hb with hb
    subst hb
    exact ⟨hcond.1, hcond.2⟩
  · cases hb

theorem mem_backup_valid {cs : List Container} {date : String} {it : HotItem}
    (hmem : it ∈ _parse_page_backup cs date) : 1 ≤ it.rank ∧ it.title ≠ "" := by
  unfold _parse_page_backup at hmem
  rcases List.mem_filterMap.mp hmem with ⟨c, _, hc⟩
  unfold containerExtract at hc
  split at hc
  · cases hc
  · split at hc
    · cases hc
    · exact buildItemBackup_valid hc

theorem ensureDir_idem (dirs : List String) (d : String) :
    ensureDir (ensureDir dirs d) d = ensureDir dirs d := by
  unfold ensureDir
  split
  · rename_i h; simp [h]
  · simp

theorem setFile_idem (files : List (String × Snapshot)) (p : String) (s : Snapshot) :
    setFile (setFile files p s) p s = setFile files p s := by
  unfold setFile
  simp [List.filter_filter]

theorem fileLookup_setFile (ds : List String) (files : List (String × Snapshot))
    (p : String) (s : Snapshot) :
    fileLookup ⟨ds, setFile files p s⟩ p = some s := by
  unfold fileLookup setFile
  simp [List.find?]

theorem rtAfterPlaywright_usedPlaywright (cached : Option (List RTItem))
    (page : Option RTPage) : (rtAfterPlaywright cached page).usedPlaywright = true := by
  show (if (httpYield page).isEmpty = true then
          (⟨rtFallback cached, true, true⟩ : FetchOutcome)
        else ⟨httpYield page, true, true⟩).usedPlaywright = true
  split <;> rfl

theorem rtPlaywrightStep_usedPlaywright (cached : Option (List RTItem)) (pw : PwResult)
    (page : Option RTPage) : (rtPlaywrightStep cached pw page).usedPlaywright = true := by
  cases pw with
  | raised => exact rtAfterPlaywright_usedPlaywright cached page
  | returned items =>
    show (if items.isEmpty = true then rtAfterPlaywright cached page
          else ⟨items, true, false⟩).usedPlaywright = true
    split
    · exact rtAfterPlaywright_usedPlaywright cached page
    · rfl

/-! ### Claim theorems -/

/-- C1: the unit normalizer `_extract_number` maps every input to a value in
the canonical 万 unit rounded to two decimals (represented exactly in
hundredths) and never raises: `"1.50亿" ↦ 15000.00`, `"855.15万" ↦ 855.15`,
`"8210" ↦ 0.82`, and unparseable input — the empty string, or a run `float`
rejects — yields `0.0`. -/
theorem C1_unit_normalizer :
    _extract_number "1.50亿" = 1500000 ∧
    _extract_number "855.15万" = 85515 ∧
    _extract_number "8210" = 82 ∧
    _extract_number "" = 0 ∧
    _extract_number "1.2.3万" = 0 := by
  exact ⟨by decide, by decide, by decide, by decide, by decide⟩

/-- C2 counterexample: `parse_page` does not re-number ranks, so a page whose
only valid entry is headed `第2名` yields the rank list `[2]`, which is not
`1..N` — the claimed contiguity fails. -/
theorem C2_counterexample :
    (parse_page c2Page "2025-01-01").map (fun it => it.rank) ≠
      List.range' 1 (parse_page c2Page "2025-01-01").length := by decide

/-- C2 amended: after cleanup every entry returned by `parse_page` has a
positive rank and a non-empty title, and the primary-strategy list is sorted
by rank; but ranks are taken from the page text and are not re-numbered, so
they need not be contiguous `1..N`. -/
theorem C2_rank_validity (page : PageModel) (date : String) :
    (parse_page page date).all
        (fun it => decide (1 ≤ it.rank) && (it.title != "")) = true ∧
    (sortByRank (primaryItems page.anchors date)).Pairwise
      (fun a b => a.rank ≤ b.rank) := by
  constructor
  · rw [List.all_eq_true]
    intro it hmem
    have hv : 1 ≤ it.rank ∧ it.title ≠ "" := by
      simp only [parse_page] at hmem
      split at hmem
      · exact mem_backup_valid hmem
      · unfold sortByRank at hmem
        exact mem_primaryItems_valid (mem_stableSortBy.mp hmem)
    simp only [Bool.and_eq_true, decide_eq_true_eq, bne_iff_ne]
    exact hv
  · exact pairwise_stableSortBy _

/-- C2 amended, witness at a concrete page. -/
theorem C2_rank_validity_witness :
    (parse_page c2Page "2025-01-01").all
        (fun it => decide (1 ≤ it.rank) && (it.title != "")) = true ∧
    (sortByRank (primaryItems c2Page.anchors "2025-01-01")).Pairwise
      (fun a b => a.rank ≤ b.rank) :=
  C2_rank_validity c2Page "2025-01-01"

/-- C3: for every realtime page, `parse_realtime_page` returns no two entries
with the same title, every returned title is at most one-third digit
characters (rows above that bound were discarded), and the ranks are exactly
`1, 2, ..., N` in list order. -/
theorem C3_realtime_dedup (rows : List TrRow) (links : List RTLink) :
    ((parse_realtime_page rows links).map (fun it => it.title)).Nodup ∧
    ((parse_realtime_page rows links).map (fun it => it.title)).all
        (fun t => decide (3 * digitCount t.data ≤ t.length)) = true ∧
    (parse_realtime_page rows links).map (fun it => it.rank) =
      List.range' 1 (parse_realtime_page rows links).length := by
  have key : ∀ X : List RTItem,
      ((renumber 1 (cleanLoop [] X)).map (fun it => it.title)).Nodup ∧
      ((renumber 1 (cleanLoop [] X)).map (fun it => it.title)).all
          (fun t => decide (3 * digitCount t.data ≤ t.length)) = true ∧
      (renumber 1 (cleanLoop [] X)).map (fun it => it.rank) =
        List.range' 1 (renumber 1 (cleanLoop [] X)).length := by
    intro X
    refine ⟨?_, ?_, ?_⟩
    · rw [renumber_map_title]
      exact (cleanLoop_nodup X []).1
    · rw [renumber_map_title, List.all_eq_true]
      intro t ht
      rcases List.mem_map.mp ht with ⟨it, hit, rfl⟩
      exact decide_eq_true (cleanLoop_digit X [] it hit)
    · rw [renumber_length, renumber_map_rank]
  simp only [parse_realtime_page]
  exact key _

theorem load_from_file_nonempty {c : CacheFile} (hne : c.data ≠ []) :
    load_from_file (some c) = some c.data := by
  have hemp : c.data.isEmpty = false := by
    rcases hdat : c.data with _ | ⟨x, xs⟩
    · exact absurd hdat hne
    · rfl
  show (if c.data.isEmpty = true then none else some c.data) = some c.data
  rw [hemp]
  rfl

/-- C4: with `use_cache = True` and a cache record holding a non-empty entry
list, `fetch_realtime_top50` returns the cached entries truncated to 50 with
no acquisition strategy invoked exactly when the record is under one hour old
(`ageSeconds < 3600`); a record one hour old or older fails the cache check
and the fallback chain runs (the Playwright strategy is invoked). -/
theorem C4_cache_freshness (c : CacheFile) (pw : PwResult) (page : Option RTPage)
    (hne : c.data ≠ []) :
    fetch_realtime_top50 true (some c) pw page =
      (if c.ageSeconds < 3600 then ⟨c.data.take 50, false, false⟩
       else rtPlaywrightStep (some c.data) pw page) ∧
    (rtPlaywrightStep (some c.data) pw page).usedPlaywright = true := by
  have hload : load_from_file (some c) = some c.data := load_from_file_nonempty hne
  constructor
  · unfold fetch_realtime_top50
    rw [if_pos rfl, hload]
  · exact rtPlaywrightStep_usedPlaywright (some c.data) pw page

/-- C4 witness: a record 59 minutes old is served with no strategy invoked. -/
theorem C4_cache_freshness_witness :
    c4cache.data ≠ [] ∧
    (fetch_realtime_top50 true (some c4cache) PwResult.raised none =
        (if c4cache.ageSeconds < 3600 then ⟨c4cache.data.take 50, false, false⟩
         else rtPlaywrightStep (some c4cache.data) PwResult.raised none) ∧
      (rtPlaywrightStep (some c4cache.data) PwResult.raised none).usedPlaywright = true) :=
  ⟨by decide, C4_cache_freshness c4cache PwResult.raised none (by decide)⟩

/-- C5 counterexample: with `use_cache = False` the cache is never loaded, so
even though a non-empty (stale) cache record exists and both strategies fail,
`fetch_realtime_top50` returns the empty list, not the cached entries — the
claim as stated (unconditional on `use_cache`) fails. -/
theorem C5_counterexample :
    (fetch_realtime_top50 false (some c5cache) PwResult.raised none).result = [] ∧
    c5cache.data.take 50 ≠ [] := by decide

/-- C5 amended: when called with `use_cache = True` and the cache file holds a
record with a non-empty entry list, if both acquisition strategies fail the
cached entries are returned (truncated to 50) even when stale; with no cache
record the empty list is returned (and nothing raises, the function being
total). -/
theorem C5_cache_fallback (c : CacheFile) (pw : PwResult) (page : Option RTPage)
    (hne : c.data ≠ []) (hpw : pwYield pw = []) (hhttp : httpYield page = []) :
    (fetch_realtime_top50 true (some c) pw page).result = c.data.take 50 ∧
    fetch_realtime_top50 true none pw page = ⟨[], true, true⟩ := by
  have hstep : ∀ cached : Option (List RTItem),
      rtPlaywrightStep cached pw page = ⟨rtFallback cached, true, true⟩ := by
    intro cached
    have hafter : rtAfterPlaywright cached page = ⟨rtFallback cached, true, true⟩ := by
      show (if (httpYield page).isEmpty = true then
              (⟨rtFallback cached, true, true⟩ : FetchOutcome)
            else ⟨httpYield page, true, true⟩) = ⟨rtFallback cached, true, true⟩
      rw [hhttp]
      rfl
    cases pw with
    | raised => exact hafter
    | returned items =>
      simp only [pwYield] at hpw
      subst hpw
      exact hafter
  have hload : load_from_file (some c) = some c.data := load_from_file_nonempty hne
  constructor
  · unfold fetch_realtime_top50
    rw [if_pos rfl, hload]
    show (if c.ageSeconds < 3600 then (⟨c.data.take 50, false, false⟩ : FetchOutcome)
          else rtPlaywrightStep (some c.data) pw page).result = c.data.take 50
    split
    · rfl
    · rw [hstep (some c.data)]
      rfl
  · unfold fetch_realtime_top50
    rw [if_pos rfl]
    show rtPlaywrightStep (if true = true then load_from_file none else none) pw page
        = ⟨[], true, true⟩
    rw [if_pos rfl]
    show rtPlaywrightStep none pw page = ⟨[], true, true⟩
    rw [hstep none]
    rfl

/-- C5 amended, witness: a stale non-empty cache is served when the browser
strategy returned nothing and the HTTP strategy found no page. -/
theorem C5_cache_fallback_witness :
    c5wcache.data ≠ [] ∧ pwYield (PwResult.returned []) = [] ∧ httpYield none = [] ∧
    ((fetch_realtime_top50 true (some c5wcache) (PwResult.returned []) none).result =
        c5wcache.data.take 50 ∧
      fetch_realtime_top50 true none (PwResult.returned []) none = ⟨[], true, true⟩) :=
  ⟨by decide, rfl, rfl,
    C5_cache_fallback c5wcache (PwResult.returned []) none (by decide) rfl rfl⟩

/-- C6: for every `s ≤ e`, `scrape_range` visits exactly the day numbers
`s, s+1, ..., e` (the generated date list is that arithmetic progression),
`total_dates` is the number of days in the range, `successful + failed =
total_dates`, `failed` counts and `failed_dates` lists exactly the dates whose
scrape returned failure or raised — a raising date is recorded and never
aborts the rest of the range. -/
theorem C6_scrape_range (s e : Int) (out : Int → DayOutcome) (_hse : s ≤ e) :
    (scrape_range s e out).total_dates = (e + 1 - s).toNat ∧
    (scrape_range s e out).successful + (scrape_range s e out).failed =
      (scrape_range s e out).total_dates ∧
    (scrape_range s e out).failed_dates =
      (dateList s e).filter (fun d => dayFailed (out d)) ∧
    (scrape_range s e out).failed =
      ((dateList s e).filter (fun d => dayFailed (out d))).length ∧
    dateList s e = (List.range ((e + 1 - s).toNat)).map (fun i : Nat => s + (i : Int)) := by
  have hdl : dateList s e =
      (List.range ((e + 1 - s).toNat)).map (fun i : Nat => s + (i : Int)) :=
    dateListGo_eq _ s e rfl
  have hlen : (dateList s e).length = (e + 1 - s).toNat := by
    rw [hdl, List.length_map, List.length_range]
  have hspec := scrapeLoop_spec out (dateList s e)
  exact ⟨hlen, hspec.1, hspec.2.1, hspec.2.2, hdl⟩

/-- C6 witness: a three-day range whose middle day raises yields
`total_dates = 3`, `successful + failed = 3`, `failed = 1` and
`failed_dates = [1]`. -/
theorem C6_scrape_range_witness :
    (0 : Int) ≤ 2 ∧
    ((scrape_range 0 2 c6scen).total_dates = ((2 : Int) + 1 - 0).toNat ∧
      (scrape_range 0 2 c6scen).successful + (scrape_range 0 2 c6scen).failed =
        (scrape_range 0 2 c6scen).total_dates ∧
      (scrape_range 0 2 c6scen).failed_dates =
        (dateList 0 2).filter (fun d => dayFailed (c6scen d)) ∧
      (scrape_range 0 2 c6scen).failed =
        ((dateList 0 2).filter (fun d => dayFailed (c6scen d))).length ∧
      dateList 0 2 =
        (List.range (((2 : Int) + 1 - 0).toNat)).map (fun i : Nat => 0 + (i : Int))) :=
  ⟨by decide, C6_scrape_range 0 2 c6scen (by decide)⟩

/-- C7: when the primary strategy yields zero entries `parse_page` returns the
backup strategy's result, and when both strategies yield zero entries for a
successfully fetched date, `scrape_date` still persists a snapshot with
`count = 0` and an empty entry list at that date's path and returns `True`.
(`pageA` exercises the fallback, `pageB` the empty persistence.) -/
theorem C7_backup_and_empty_persist (pageA pageB : PageModel) (σ : Store)
    (date : String) (y m d : Nat)
    (hpA : primaryItems pageA.anchors date = [])
    (hpB : primaryItems pageB.anchors date = [])
    (hbB : _parse_page_backup pageB.containers date = [])
    (hd : parseDate date = some (y, m, d)) :
    parse_page pageA date = _parse_page_backup pageA.containers date ∧
    (scrape_date (some pageB) σ date "data").2 = true ∧
    fileLookup (scrape_date (some pageB) σ date "data").1 (filePath "data" y m date) =
      some ⟨date, 0, []⟩ := by
  have hparseA : parse_page pageA date = _parse_page_backup pageA.containers date := by
    unfold parse_page
    rw [hpA]
    rfl
  have hparseB : parse_page pageB date = [] := by
    unfold parse_page
    rw [hpB]
    show _parse_page_backup pageB.containers date = []
    exact hbB
  have hsd : scrape_date (some pageB) σ date "data" = save_data σ [] date "data" := by
    show save_data σ (parse_page pageB date) date "data" = save_data σ [] date "data"
    rw [hparseB]
  have hsave : save_data σ [] date "data" =
      (⟨ensureDir σ.dirs (monthDir "data" y m),
        setFile σ.files (filePath "data" y m date) ⟨date, 0, []⟩⟩, true) := by
    unfold save_data
    rw [hd]
    rfl
  refine ⟨hparseA, ?_, ?_⟩
  · rw [hsd, hsave]
  · rw [hsd, hsave]
    exact fileLookup_setFile _ _ _ _

/-- C7 witness: a page with only a backup-strategy entry takes the fallback
(non-vacuously), and a fully empty page is persisted as `count 0, data []`
with result `True`. -/
theorem C7_backup_and_empty_persist_witness :
    primaryItems c7pageA.anchors "2025-01-03" = [] ∧
    primaryItems c7pageB.anchors "2025-01-03" = [] ∧
    _parse_page_backup c7pageB.containers "2025-01-03" = [] ∧
    parseDate "2025-01-03" = some (2025, 1, 3) ∧
    (parse_page c7pageA "2025-01-03" = _parse_page_backup c7pageA.containers "2025-01-03" ∧
      (scrape_date (some c7pageB) emptyStore "2025-01-03" "data").2 = true ∧
      fileLookup (scrape_date (some c7pageB) emptyStore "2025-01-03" "data").1
          (filePath "data" 2025 1 "2025-01-03") = some ⟨"2025-01-03", 0, []⟩) :=
  ⟨by decide, by decide, by decide, by decide,
    C7_backup_and_empty_persist c7pageA c7pageB emptyStore "2025-01-03" 2025 1 3
      (by decide) (by decide) (by decide) (by decide)⟩

/-- C8: `save_data` writes the snapshot `{date, count = len(data), data}` to
`<outputDir>/<YYYY-MM>/<date>.json` and returns `True`; saving the same data
at the same date a second time is a no-op on the store (the overwrite is
unconditional and the serialized content is a deterministic function of the
data), so both writes leave identical content at the same path. -/
theorem C8_idempotent_persistence (σ : Store) (data : List HotItem)
    (date outDir : String) (y m d : Nat) (hd : parseDate date = some (y, m, d)) :
    save_data (save_data σ data date outDir).1 data date outDir =
      save_data σ data date outDir ∧
    (save_data σ data date outDir).2 = true ∧
    fileLookup (save_data σ data date outDir).1 (filePath outDir y m date) =
      some ⟨date, data.length, data⟩ ∧
    fileLookup (save_data (save_data σ data date outDir).1 data date outDir).1
      (filePath outDir y m date) = some ⟨date, data.length, data⟩ := by
  have h1 : save_data σ data date outDir =
      (⟨ensureDir σ.dirs (monthDir outDir y m),
        setFile σ.files (filePath outDir y m date) ⟨date, data.length, data⟩⟩, true) := by
    unfold save_data
    rw [hd]
  have h2 : save_data (save_data σ data date outDir).1 data date outDir =
      save_data σ data date outDir := by
    rw [h1]
    unfold save_data
    rw [hd]
    show ((⟨ensureDir (ensureDir σ.dirs (monthDir outDir y m)) (monthDir outDir y m),
          setFile (setFile σ.files (filePath outDir y m date) ⟨date, data.length, data⟩)
            (filePath outDir y m date) ⟨date, data.length, data⟩⟩ : Store), true) =
        ((⟨ensureDir σ.dirs (monthDir outDir y m),
          setFile σ.files (filePath outDir y m date) ⟨date, data.length, data⟩⟩ : Store), true)
    rw [ensureDir_idem, setFile_idem]
  refine ⟨h2, ?_, ?_, ?_⟩
  · rw [h1]
  · rw [h1]
    exact fileLookup_setFile _ _ _ _
  · rw [h2, h1]
    exact fileLookup_setFile _ _ _ _

/-- C8 witness at a concrete store, date and entry list. -/
theorem C8_idempotent_persistence_witness :
    parseDate "2025-03-05" = some (2025, 3, 5) ∧
    (save_data (save_data emptyStore [] "2025-03-05" "data").1 [] "2025-03-05" "data" =
        save_data emptyStore [] "2025-03-05" "data" ∧
      (save_data emptyStore [] "2025-03-05" "data").2 = true ∧
      fileLookup (save_data emptyStore [] "2025-03-05" "data").1
          (filePath "data" 2025 3 "2025-03-05") = some ⟨"2025-03-05", 0, []⟩ ∧
      fileLookup
          (save_data (save_data emptyStore [] "2025-03-05" "data").1 [] "2025-03-05"
            "data").1
          (filePath "data" 2025 3 "2025-03-05") = some ⟨"2025-03-05", 0, []⟩) :=
  ⟨by decide,
    C8_idempotent_persistence emptyStore [] "2025-03-05" "data" 2025 3 5 (by decide)⟩

/-- C9 counterexample: on a non-zero child exit the subprocess bridge does
return the empty list, but the temporary result file is not deleted — the
`os.remove` sits in the `finally` of the payload-reading `try`, which is only
entered when `returncode == 0`, so "deleted regardless of outcome" fails. -/
theorem C9_counterexample :
    fetch_realtime_top50_with_playwright ChildOutcome.nonzeroExit = ⟨[], false⟩ := rfl

/-- C9 amended: a non-zero child exit, a timeout and a malformed payload each
make the bridge return the empty list rather than raise; the temporary file is
deleted on the success path and on the malformed-payload path (the `finally`
around the payload read), but not on non-zero exit or timeout. -/
theorem C9_subprocess_bridge (its : List RTItem) :
    fetch_realtime_top50_with_playwright (ChildOutcome.completed (some its)) = ⟨its, true⟩ ∧
    fetch_realtime_top50_with_playwright (ChildOutcome.completed none) = ⟨[], true⟩ ∧
    fetch_realtime_top50_with_playwright ChildOutcome.nonzeroExit = ⟨[], false⟩ ∧
    fetch_realtime_top50_with_playwright ChildOutcome.timedOut = ⟨[], false⟩ :=
  ⟨rfl, rfl, rfl, rfl⟩

/-- C10: `save_data` on a date string `strptime` rejects returns `False`,
raises nothing (the `ValueError` is caught), and leaves the store — its
directories and its files — unchanged. -/
theorem C10_invalid_date_save (σ : Store) (data : List HotItem) (date outDir : String)
    (hd : parseDate date = none) : save_data σ data date outDir = (σ, false) := by
  unfold save_data
  rw [hd]

/-- C10 witness: month 13 is rejected by the `%m` pattern. -/
theorem C10_invalid_date_save_witness :
    parseDate "2025-13-01" = none ∧
    save_data emptyStore [] "2025-13-01" "data" = (emptyStore, false) :=
  ⟨by decide, C10_invalid_date_save emptyStore [] "2025-13-01" "data" (by decide)⟩
